import Mathlib

/-!
Formal model of the `repo-seo` SEO content-generation engine.

This file gives a shallow embedding, in Lean 4, of the pure text-processing
core of the repository:

* `validate_github_topic` from `src/repo_seo.py`;
* the topic list assembled by `update_repo_topics` (`src/repo_seo.py`);
* the `LocalProvider` operations from `src/llm_providers/local_provider.py`;
* the module-level rule-based generators and the `SEOGenerator` orchestration
  from `src/seo_generator/generator.py` (the active provider is a parameter,
  its fallible calls modelled with `Except`);
* the rule-based topic extractor from `src/utils/analyzers_impl.py`;
* the transport-failure handling of `src/llm_providers/ollama_provider.py`
  (the HTTP backend is an oracle parameter).

Strings are modelled as `List Char` / `String`; Python's `str.lower`,
`str.strip`, `str.title` and the regular-expression operations used by the
source are modelled at the ASCII level (the source only manipulates ASCII
metadata).  Theorems about each specified property follow the definitions.
-/

namespace RepoSeo

/-- ASCII model of Python `str.lower` applied to one character. -/
def pyToLower (c : Char) : Char :=
  if 65 ≤ c.toNat ∧ c.toNat ≤ 90 then Char.ofNat (c.toNat + 32) else c

/-- ASCII model of Python `str.upper` applied to one character. -/
def pyToUpper (c : Char) : Char :=
  if 97 ≤ c.toNat ∧ c.toNat ≤ 122 then Char.ofNat (c.toNat - 32) else c

/-- Characters treated as whitespace by Python `str.strip()` and `\s` (ASCII). -/
def isAsciiSpace (c : Char) : Bool :=
  c.toNat = 32 ∨ c.toNat = 9 ∨ c.toNat = 10 ∨ c.toNat = 13 ∨ c.toNat = 11 ∨ c.toNat = 12

/-- The character class `[\s_]` of `validate_github_topic`. -/
def isSpaceUnderscore (c : Char) : Bool :=
  isAsciiSpace c || c.toNat = 95

/-- The character class `[a-z0-9-]` (characters kept by the validator). -/
def isLowerAlnumHyphen (c : Char) : Bool :=
  (97 ≤ c.toNat && c.toNat ≤ 122) || (48 ≤ c.toNat && c.toNat ≤ 57) || c.toNat = 45

/-- The character class `[a-z0-9]` (the validator's required first character). -/
def isLowerAlnum (c : Char) : Bool :=
  (97 ≤ c.toNat && c.toNat ≤ 122) || (48 ≤ c.toNat && c.toNat ≤ 57)

/-- The character class `[a-zA-Z0-9]` used by the source's `re.findall` tokenizers. -/
def isAlnumAscii (c : Char) : Bool :=
  (97 ≤ c.toNat && c.toNat ≤ 122) || (65 ≤ c.toNat && c.toNat ≤ 90) ||
    (48 ≤ c.toNat && c.toNat ≤ 57)

/-- The character class `[a-zA-Z]`. -/
def isAlphaAscii (c : Char) : Bool :=
  (97 ≤ c.toNat && c.toNat ≤ 122) || (65 ≤ c.toNat && c.toNat ≤ 90)

/-- The character class `[A-Z]`. -/
def isUpperAscii (c : Char) : Bool :=
  65 ≤ c.toNat && c.toNat ≤ 90

/-- A hyphen test, used for the validator's `-+` collapse and `strip('-')`. -/
def isHyphen (c : Char) : Bool := c = '-'

/-- Remove trailing characters satisfying `p` (the tail half of Python `strip`). -/
def dropTrailing (p : Char → Bool) (l : List Char) : List Char :=
  (l.reverse.dropWhile p).reverse

/-- Python `str.strip` with character class `p`: drop leading and trailing matches. -/
def pyStrip (p : Char → Bool) (l : List Char) : List Char :=
  dropTrailing p (l.dropWhile p)

/-- Model of `re.sub('[c]+', rep, ·)` for a character class `p`: every maximal
run of characters satisfying `p` is replaced by the single character `rep`.
The flag records whether the previous character belonged to a run. -/
def squashRuns (p : Char → Bool) (rep : Char) : List Char → Bool → List Char
  | [], _ => []
  | c :: rest, inRun =>
    if p c then
      if inRun then squashRuns p rep rest true
      else rep :: squashRuns p rep rest true
    else c :: squashRuns p rep rest false

/-- Model of `re.findall('[c]+', ·)`: the maximal runs of characters
satisfying `p`, in order (accumulator holds the current run reversed). -/
def tokenizeAux (p : Char → Bool) : List Char → List Char → List (List Char)
  | [], acc => if acc.isEmpty then [] else [acc.reverse]
  | c :: rest, acc =>
    if p c then tokenizeAux p rest (c :: acc)
    else if acc.isEmpty then tokenizeAux p rest []
    else acc.reverse :: tokenizeAux p rest []

/-- The maximal runs of characters satisfying `p`. -/
def tokenize (p : Char → Bool) (l : List Char) : List (List Char) :=
  tokenizeAux p l []

/-- Python `pat in s` on lists of characters (substring test). -/
def listIn (pat : List Char) : List Char → Bool
  | [] => pat.isPrefixOf []
  | c :: rest => pat.isPrefixOf (c :: rest) || listIn pat rest

/-- Python `pat in s` on strings. -/
def strIn (pat s : String) : Bool := listIn pat.data s.data

/-- Python `s.split(sep)` for a single separator character. -/
def splitOnChar (sep : Char) : List Char → List (List Char)
  | [] => [[]]
  | c :: rest =>
    match splitOnChar sep rest with
    | [] => [[c]]
    | h :: t => if c = sep then [] :: h :: t else (c :: h) :: t

/-- Python `", ".join`-style joining of a list of strings. -/
def joinSep (sep : String) : List String → String
  | [] => ""
  | [x] => x
  | x :: xs => x ++ sep ++ joinSep sep xs

/-- Python `s.lower()` on strings (ASCII model). -/
def lowerStr (s : String) : String := String.mk (s.data.map pyToLower)

/-- Python `s.title()` (ASCII model): the first letter after a non-letter is
uppercased, subsequent letters are lowercased. -/
def pyTitleAux : Bool → List Char → List Char
  | _, [] => []
  | prevAlpha, c :: rest =>
    if isAlphaAscii c then
      (if prevAlpha then pyToLower c else pyToUpper c) :: pyTitleAux true rest
    else c :: pyTitleAux false rest

/-- Python `s.title()` on a character list. -/
def pyTitle (l : List Char) : List Char := pyTitleAux false l

/-- Python `s.replace(a, b)` for single characters. -/
def replaceChar (a b : Char) (l : List Char) : List Char :=
  l.map fun c => if c = a then b else c

/-- The display-name cleanup used throughout the source:
`repo_name.replace('-', ' ').replace('_', ' ').title()`. -/
def displayName (s : String) : String :=
  String.mk (pyTitle (replaceChar '_' ' ' (replaceChar '-' ' ' s.data)))

/-- Truncation idiom `s[:n-3] + "..."` applied when `len(s) > n`. -/
def pyTruncate (n : Nat) (s : String) : String :=
  if s.data.length > n then String.mk (s.data.take (n - 3)) ++ "..." else s

/-- Step 2 of the validator: `topic.lower().strip()`. -/
def loweredStripped (topic : String) : List Char :=
  pyStrip isAsciiSpace (topic.data.map pyToLower)

/-- Steps 4-7 of the validator: `[\s_]+` runs to `-`, strip characters
outside `[a-z0-9-]`, collapse `-+` runs, `strip('-')`. -/
def validateCore (t : List Char) : List Char :=
  pyStrip isHyphen
    (squashRuns isHyphen '-'
      ((squashRuns isSpaceUnderscore '-' t false).filter isLowerAlnumHyphen) false)

/-- Embedding of `validate_github_topic` (`src/repo_seo.py`, lines 126-165), step for step:
empty guard; lowercase and strip; comma rejection; `[\s_]+` to `-`;
strip characters outside `[a-z0-9-]`; collapse `-+`; `strip('-')`;
require a leading `[a-z0-9]`; truncate to 35 characters.
-/
def validate_github_topic (topic : String) : String :=
  if topic = "" then ""
  else if ',' ∈ loweredStripped topic then ""
  else if (validateCore (loweredStripped topic)).isEmpty then ""
  else if isLowerAlnum ((validateCore (loweredStripped topic)).headD ' ') then
    String.mk ((validateCore (loweredStripped topic)).take 35)
  else ""

/-- One iteration of the validation loop of `update_repo_topics`: keep a
validated topic when it is non-empty and not yet collected. -/
def updateRepoStep (acc : List String) (t : String) : List String :=
  if validate_github_topic t ≠ "" ∧ validate_github_topic t ∉ acc then
    acc ++ [validate_github_topic t]
  else acc

/-- The validated topic list assembled by `update_repo_topics`
(`src/repo_seo.py`, lines 179-199): validate each candidate, drop empty
results and duplicates, cap at 20.
-/
def updateRepoValidTopics (topics : List String) : List String :=
  if (topics.foldl updateRepoStep []).length > 20 then
    (topics.foldl updateRepoStep []).take 20
  else topics.foldl updateRepoStep []

/-! ### Rule-based description generation -/

/-- The scan of `generate_description`: first stripped line of the stripped
README that is non-empty, not a `#` heading and not a `---` rule. -/
def firstContentLine : List (List Char) → List Char
  | [] => []
  | ln :: rest =>
    let s := pyStrip isAsciiSpace ln
    if ¬ s.isEmpty ∧ ¬ ['#'].isPrefixOf s ∧ ¬ ['-', '-', '-'].isPrefixOf s then s
    else firstContentLine rest

/-- Core of the rule-based description generators.  `LocalProvider.generate_description`
(`local_provider.py`, lines 30-83) and the module-level `generate_description`
(`seo_generator/generator.py`, lines 184-238) are textually identical except for
the first-line threshold (`min_description_length = 50` for the provider, the
literal `30` for the module); both cap the result at 250 characters.
-/
def ruleDescription (minFirstLine : Nat) (repo_name : String) (languages : List String)
    (topics : List String) (readme : String) : String :=
  let firstLineRaw :=
    if readme = "" then []
    else firstContentLine (splitOnChar '\n' (pyStrip isAsciiSpace readme.data))
  let firstLine := firstLineRaw.filter fun c => ¬ (c = '#' ∨ c = '*' ∨ c = '_')
  let description :=
    if firstLine.length ≥ minFirstLine then String.mk firstLine
    else
      let base :=
        match languages with
        | [] => "A project for " ++ displayName repo_name
        | primary :: others =>
          let d := "A " ++ primary ++ " project for " ++ displayName repo_name
          if ¬ others.isEmpty then d ++ " using " ++ joinSep ", " (others.take 2) else d
      if ¬ topics.isEmpty then base ++ " focused on " ++ joinSep ", " (topics.take 3)
      else base
  pyTruncate 250 description

/-- Embedding of `LocalProvider.generate_description` (first-line threshold 50). -/
def localGenerateDescription (repo_name : String) (languages : List String)
    (topics : List String) (readme : String) : String :=
  ruleDescription 50 repo_name languages topics readme

/-- Module-level `generate_description` of `seo_generator/generator.py`
(first-line threshold 30). -/
def generatorGenerateDescription (repo_name : String) (languages : List String)
    (topics : List String) (readme : String) : String :=
  ruleDescription 30 repo_name languages topics readme

/-! ### Regular-expression scans used by topic generation and README analysis -/

/-- Model of `re.findall('#+\s+(.+)', readme)` (and of the line-anchor-free
`'#\s+(.+)'`, which produces the same groups: only the last `#` of a run can
start a match of the latter).  At each `#` run the scan requires at least one
whitespace character and then captures greedily to the end of the line;
scanning resumes after the captured text.  A match whose capture would be
empty is only possible at end of input, where the regex engine would
backtrack onto trailing whitespace; such a whitespace-only group contains no
alphanumeric word and is dropped by every consumer, so the model omits it.
-/
def scanHeaders : List Char → List (List Char)
  | [] => []
  | c :: rest =>
    if c = '#' then
      let r2 := (rest.dropWhile (· = '#')).dropWhile isAsciiSpace
      let content := r2.takeWhile fun x => ¬ (x = '\n')
      if ((rest.dropWhile (· = '#')).takeWhile isAsciiSpace).isEmpty ∨ content.isEmpty then
        scanHeaders rest
      else content :: scanHeaders (r2.dropWhile fun x => ¬ (x = '\n'))
    else scanHeaders rest
  termination_by l => l.length
  decreasing_by
  all_goals
    have hA : (rest.dropWhile (· = '#')).length ≤ rest.length :=
      (List.dropWhile_sublist _).length_le
    have hB : ((rest.dropWhile (· = '#')).dropWhile isAsciiSpace).length ≤
        (rest.dropWhile (· = '#')).length :=
      (List.dropWhile_sublist _).length_le
    have hC : (((rest.dropWhile (· = '#')).dropWhile isAsciiSpace).dropWhile
          (fun x => ¬ (x = '\n'))).length ≤
        ((rest.dropWhile (· = '#')).dropWhile isAsciiSpace).length :=
      (List.dropWhile_sublist _).length_le
    simp only [List.length_cons]
    omega

/-- Model of the multiline scan `re.findall('^(#+)\s+(.+)$', content, re.MULTILINE)`
(second group), used by `RuleBasedTopicExtractor.extract`.  Matches are
anchored at line starts; as in `scanHeaders`, `\s+` may consume newlines, the
capture runs to the end of a line, and scanning resumes on the following line.
-/
def scanHeadersAnchored : List Char → List (List Char)
  | [] => []
  | c :: rest =>
    if c = '#' then
      let r2 := (rest.dropWhile (· = '#')).dropWhile isAsciiSpace
      let content := r2.takeWhile fun x => ¬ (x = '\n')
      if ((rest.dropWhile (· = '#')).takeWhile isAsciiSpace).isEmpty ∨ content.isEmpty then
        scanHeadersAnchored ((rest.dropWhile fun x => ¬ (x = '\n')).drop 1)
      else
        content ::
          scanHeadersAnchored ((r2.dropWhile fun x => ¬ (x = '\n')).drop 1)
    else scanHeadersAnchored (((c :: rest).dropWhile fun x => ¬ (x = '\n')).drop 1)
  termination_by l => l.length
  decreasing_by
  all_goals
    have hA : (rest.dropWhile (· = '#')).length ≤ rest.length :=
      (List.dropWhile_sublist _).length_le
    have hB : ((rest.dropWhile (· = '#')).dropWhile isAsciiSpace).length ≤
        (rest.dropWhile (· = '#')).length :=
      (List.dropWhile_sublist _).length_le
    have hC : (((rest.dropWhile (· = '#')).dropWhile isAsciiSpace).dropWhile
          (fun x => ¬ (x = '\n'))).length ≤
        ((rest.dropWhile (· = '#')).dropWhile isAsciiSpace).length :=
      (List.dropWhile_sublist _).length_le
    have hD : (rest.dropWhile (fun x => ¬ (x = '\n'))).length ≤ rest.length :=
      (List.dropWhile_sublist _).length_le
    have hE : ((c :: rest).dropWhile (fun x => ¬ (x = '\n'))).length ≤ (c :: rest).length :=
      (List.dropWhile_sublist _).length_le
    simp only [List.length_cons] at hE
    simp only [List.length_cons, List.length_drop]
    omega

/-- Helper for `re.split('\n\s*\n', content)`: a separator match starts at a
newline whose following maximal whitespace run contains another newline; the
greedy `\s*` with its final `\n` consume the run up to and including the last
newline of that run.
-/
def splitParagraphsAux : List Char → List Char → List (List Char)
  | acc, [] => [acc.reverse]
  | acc, c :: rest =>
    if c = '\n' ∧ ('\n' ∈ rest.takeWhile isAsciiSpace) then
      let w := rest.takeWhile isAsciiSpace
      acc.reverse ::
        splitParagraphsAux [] (rest.drop (w.length - (w.reverse.takeWhile fun x => ¬ (x = '\n')).length))
    else splitParagraphsAux (c :: acc) rest
  termination_by _ l => l.length
  decreasing_by
  · simp only [List.length_cons]
    have h1 := List.length_drop
      ((rest.takeWhile isAsciiSpace).length -
        ((rest.takeWhile isAsciiSpace).reverse.takeWhile fun x => decide (¬ (x = '\n'))).length)
      rest
    omega
  · simp only [List.length_cons]; omega

/-- Model of `re.split('\n\s*\n', content)`. -/
def splitParagraphs (l : List Char) : List (List Char) :=
  splitParagraphsAux [] l

/-- Stopword list of `LocalProvider` README word extraction. -/
def providerStopwords : List String := ["the", "and", "for", "with", "this", "that"]

/-- Stopword list of `RuleBasedTopicExtractor`. -/
def extractorStopwords : List String := ["this", "that", "with", "from", "then", "than"]

/-- Keys of `collections.Counter` built from `ws`: first-occurrence order. -/
def dedupKeys (ws : List (List Char)) : List (List Char) :=
  ws.foldl (fun acc w => if w ∈ acc then acc else acc ++ [w]) []

/-- Stable descending insertion by key count (ties keep existing order). -/
def insertByCountDesc (count : List Char → Nat) (x : List Char) :
    List (List Char) → List (List Char)
  | [] => [x]
  | y :: ys => if count y ≤ count x then x :: y :: ys else y :: insertByCountDesc count x ys

/-- Stable sort, descending by key count. -/
def sortByCountDesc (count : List Char → Nat) : List (List Char) → List (List Char)
  | [] => []
  | x :: xs => insertByCountDesc count x (sortByCountDesc count xs)

/-- The `Counter(ws).most_common(n)` keys: counts descending, ties in
first-occurrence order (Python dictionaries preserve insertion order and
`sorted` is stable). -/
def mostCommon (n : Nat) (ws : List (List Char)) : List (List Char) :=
  (sortByCountDesc (fun w => ws.count w) (dedupKeys ws)).take n

/-- The alphanumeric words of a text, lowercased:
`re.findall('[a-zA-Z0-9]+', text.lower())`. -/
def lowerWords (l : List Char) : List (List Char) :=
  tokenize isAlnumAscii (l.map pyToLower)

/-! ### Topic generation -/

/-- Python sets are modelled as insertion-ordered duplicate-free lists; the
iteration order of a CPython `set` is unspecified, and every property proved
below is independent of the order, depending only on membership and size. -/
def addTopic (acc : List String) (t : String) : List String :=
  if t ∈ acc then acc else acc ++ [t]

/-- Python `set.update`-style addition of many elements. -/
def addTopics (acc : List String) (ts : List String) : List String :=
  ts.foldl addTopic acc

/-- The capping loop shared by `LocalProvider.generate_topics`
(`local_provider.py`, lines 143-153) and the module-level `generate_topics`
(`generator.py`, lines 285-296): keep all current topics, then append unseen
generated topics, breaking once the length reaches `cap`.
-/
def capLoop (cap : Nat) (result : List String) : List String → List String
  | [] => result
  | t :: ts =>
    if t ∈ result then capLoop cap result ts
    else
      let r := result ++ [t]
      if r.length ≥ cap then r else capLoop cap r ts

/-- The fixed `common_topics` vocabulary of both topic generators. -/
def commonTopics : List String :=
  ["github", "repository", "project", "code", "open-source",
   "development", "programming", "software", "tool", "utility",
   "library", "framework", "api", "app", "application",
   "automation", "cli", "command-line", "web", "data",
   "analysis", "machine-learning", "ai", "documentation"]

/-- The `common_topics` pass shared by both generators: add every vocabulary
word that occurs as a substring of the README or of some current topic. -/
def addCommonTopics (current_topics : List String) (readme : String)
    (acc : List String) : List String :=
  commonTopics.foldl
    (fun acc topic =>
      if strIn topic (lowerStr readme) || current_topics.any (fun t => strIn topic t)
      then addTopic acc topic else acc) acc

/-- Repository-name tokens: alphanumeric runs of the lowercased name, of
length `> 2` and outside the four-word stopword list. -/
def addNameParts (repo_name : String) (acc : List String) : List String :=
  (lowerWords repo_name.data).foldl
    (fun acc part =>
      let p := String.mk part
      if part.length > 2 ∧ p ∉ (["the", "and", "for", "with"] : List String)
      then addTopic acc p else acc) acc

/-- The topic set (ordered, duplicate-free) built by
`LocalProvider.generate_topics` before its cap: current topics, name tokens,
lowercased languages, README header words (length `> 3`, stopword-filtered),
the first five of the twenty most common README words passing the same
filter, and the `common_topics` pass. -/
def localTopicsSet (repo_name : String) (languages : List String)
    (current_topics : List String) (readme : String) : List String :=
  let t0 := addTopics [] current_topics
  let t1 := addNameParts repo_name t0
  let t2 := languages.foldl (fun acc lang => addTopic acc (lowerStr lang)) t1
  let t3 :=
    if readme = "" then t2
    else
      let headerWords :=
        (scanHeaders readme.data).foldl
          (fun acc h =>
            (lowerWords h).foldl
              (fun acc w =>
                if w.length > 3 ∧ String.mk w ∉ providerStopwords
                then addTopic acc (String.mk w) else acc) acc) t2
      let commonWords :=
        ((mostCommon 20 (lowerWords readme.data)).filter
          (fun w => w.length > 3 ∧ String.mk w ∉ providerStopwords)).take 5
      commonWords.foldl (fun acc w => addTopic acc (String.mk w)) headerWords
  addCommonTopics current_topics readme t3

/-- Embedding of `LocalProvider.generate_topics` (`local_provider.py`, lines 85-155): the
topic set above, then the cap-10 loop (`max_topics = 10`).
-/
def localGenerateTopics (repo_name : String) (languages : List String)
    (current_topics : List String) (readme : String) : List String :=
  if (localTopicsSet repo_name languages current_topics readme).length > 10 then
    capLoop 10 current_topics (localTopicsSet repo_name languages current_topics readme)
  else localTopicsSet repo_name languages current_topics readme

/-- Embedding of `RuleBasedTopicExtractor.extract` (`src/utils/analyzers_impl.py`, lines
276-309), reached from `extract_topics_from_text`: words of the multiline
headings and of the first paragraph (length `> 3`, stopword-filtered, kept
with multiplicity), then the ten most common.
-/
def extract_topics_from_text (content : String) : List String :=
  if content = "" then []
  else
    let headerWords :=
      (scanHeadersAnchored content.data).foldr
        (fun h acc =>
          ((lowerWords h).filter
            (fun w => w.length > 3 ∧ String.mk w ∉ extractorStopwords)) ++ acc) []
    let firstPara := (splitParagraphs content.data).headD []
    let paraWords :=
      (lowerWords firstPara).filter
        (fun w => w.length > 3 ∧ String.mk w ∉ extractorStopwords)
    (mostCommon 10 (headerWords ++ paraWords)).map String.mk

/-- The topic set built by the module-level `generate_topics` of
`seo_generator/generator.py` before its cap: current topics, name tokens,
lowercased languages, the topics of `extract_topics_from_text`, and the
`common_topics` pass. -/
def generatorTopicsSet (repo_name : String) (languages : List String)
    (current_topics : List String) (readme : String) : List String :=
  let t0 := addTopics [] current_topics
  let t1 := addNameParts repo_name t0
  let t2 := languages.foldl (fun acc lang => addTopic acc (lowerStr lang)) t1
  let t3 :=
    if readme = "" then t2
    else addTopics t2 (extract_topics_from_text readme)
  addCommonTopics current_topics readme t3

/-- Embedding of the module-level `generate_topics` of `seo_generator/generator.py` (lines
241-298): the topic set above, then the cap-20 loop (`max_topics = 20`).
-/
def generatorGenerateTopics (repo_name : String) (languages : List String)
    (current_topics : List String) (readme : String) : List String :=
  if (generatorTopicsSet repo_name languages current_topics readme).length > 20 then
    capLoop 20 current_topics (generatorTopicsSet repo_name languages current_topics readme)
  else generatorTopicsSet repo_name languages current_topics readme

/-! ### Rule-based README synthesis -/

/-- The language-badge colour table (identical in `local_provider.py` and
`seo_generator/generator.py`). -/
def getLanguageColor (language : String) : String :=
  if language = "Python" then "3776AB"
  else if language = "JavaScript" then "F7DF1E"
  else if language = "TypeScript" then "3178C6"
  else if language = "Java" then "007396"
  else if language = "C++" then "00599C"
  else if language = "C#" then "239120"
  else if language = "PHP" then "777BB4"
  else if language = "Ruby" then "CC342D"
  else if language = "Go" then "00ADD8"
  else if language = "Rust" then "DEA584"
  else if language = "Swift" then "FA7343"
  else if language = "Kotlin" then "0095D5"
  else if language = "Dart" then "0175C2"
  else if language = "HTML" then "E34F26"
  else if language = "CSS" then "1572B6"
  else if language = "Shell" then "4EAA25"
  else "555555"

/-- The badge line emitted per language in the README template. -/
def languageBadge (lang : String) : String :=
  "![" ++ lang ++ "](https://img.shields.io/badge/-" ++ lang ++ "-" ++
    getLanguageColor lang ++ "?style=flat-square&logo=" ++ lowerStr lang ++ ")\n"

/-- The synthesized README template shared, textually identically, by
`LocalProvider.generate_readme` (`local_provider.py`, lines 290-353) and the
module-level `generate_readme` (`generator.py`, lines 320-383). -/
def ruleReadmeTemplate (repo_name : String) (languages : List String)
    (topics : List String) (description : String) : String :=
  let langsLower := languages.map lowerStr
  let header := "# " ++ displayName repo_name ++ "\n\n" ++ description ++ "\n\n"
  let langSection :=
    if ¬ languages.isEmpty then
      "## Languages\n\n" ++ (languages.foldl (fun acc l => acc ++ languageBadge l) "") ++ "\n"
    else ""
  let installation :=
    if "python" ∈ langsLower then
      "## Installation\n\n```bash\n# Clone the repository\ngit clone https://github.com/username/"
        ++ repo_name ++ ".git\ncd " ++ repo_name
        ++ "\n\n# Install dependencies\npip install -r requirements.txt\n```\n\n"
    else
      "## Installation\n\n```bash\n# Clone the repository\ngit clone https://github.com/username/"
        ++ repo_name ++ ".git\ncd " ++ repo_name ++ "\n```\n\n"
  let usageCommand :=
    if "python" ∈ langsLower then "python main.py\n"
    else if "javascript" ∈ langsLower ∨ "typescript" ∈ langsLower then "npm start\n"
    else if "java" ∈ langsLower then "java -jar " ++ repo_name ++ ".jar\n"
    else if "go" ∈ langsLower then "go run main.go\n"
    else if "rust" ∈ langsLower then "cargo run\n"
    else "# Add usage instructions here\n"
  let usage := "## Usage\n\n```bash\n" ++ usageCommand ++ "```\n\n"
  let features :=
    "## Features\n\n" ++
      ((topics.take 5).foldl
        (fun acc t => acc ++ "- " ++ displayName t ++ "\n") "") ++ "\n"
  let contributing :=
    "## Contributing\n\nContributions are welcome! Please feel free to submit a Pull Request.\n\n"
  let license :=
    "## License\n\nThis project is licensed under the MIT License - see the LICENSE file for details.\n"
  header ++ langSection ++ installation ++ usage ++ features ++ contributing ++ license

/-- Embedding of `LocalProvider.generate_readme` (`local_provider.py`, lines 272-353): an
existing README is returned unchanged only when it is truthy and its length
is strictly greater than 100. -/
def localGenerateReadme (repo_name : String) (languages : List String)
    (topics : List String) (description : String)
    (existing_readme : Option String) : String :=
  match existing_readme with
  | some e =>
    if e ≠ "" ∧ e.data.length > 100 then e
    else ruleReadmeTemplate repo_name languages topics description
  | none => ruleReadmeTemplate repo_name languages topics description

/-- Module-level `generate_readme` of `seo_generator/generator.py` (lines
301-383); its body is textually identical to `LocalProvider.generate_readme`. -/
def generatorGenerateReadme (repo_name : String) (languages : List String)
    (topics : List String) (description : String)
    (existing_readme : Option String) : String :=
  match existing_readme with
  | some e =>
    if e ≠ "" ∧ e.data.length > 100 then e
    else ruleReadmeTemplate repo_name languages topics description
  | none => ruleReadmeTemplate repo_name languages topics description

/-- Embedding of `OpenAIProvider.generate_readme` (`openai_provider.py`,
lines 325-382): an existing README that is truthy and strictly longer than
100 characters is returned unchanged; otherwise the chat completion returned
by the backend for the README prompt — an oracle parameter here, since the
prompt only influences the backend — is stripped of surrounding whitespace
and returned. -/
def openaiGenerateReadme (completion : String) (repo_name : String)
    (languages : List String) (topics : List String) (description : String)
    (existing_readme : Option String) : String :=
  match existing_readme with
  | some e =>
    if e ≠ "" ∧ e.data.length > 100 then e
    else String.mk (pyStrip isAsciiSpace completion.data)
  | none => String.mk (pyStrip isAsciiSpace completion.data)

/-- Embedding of `AnthropicProvider.generate_readme` (`anthropic_provider.py`,
lines 325-382), whose pass-through and response handling are textually
identical to the OpenAI variant: existing README strictly longer than 100
characters returned unchanged, otherwise the oracle completion stripped of
surrounding whitespace. -/
def anthropicGenerateReadme (completion : String) (repo_name : String)
    (languages : List String) (topics : List String) (description : String)
    (existing_readme : Option String) : String :=
  match existing_readme with
  | some e =>
    if e ≠ "" ∧ e.data.length > 100 then e
    else String.mk (pyStrip isAsciiSpace completion.data)
  | none => String.mk (pyStrip isAsciiSpace completion.data)

/-! ### `LocalProvider.analyze_readme` -/

/-- Result record of `analyze_readme`. -/
structure ReadmeAnalysis where
  summary : String
  topics : List String
  entities : List String
  sentiment : String
  readability : String
  suggestions : List String
  deriving Repr, DecidableEq

/-- The record returned for an empty README. -/
def emptyReadmeAnalysis : ReadmeAnalysis :=
  ⟨"", [], [], "neutral", "unknown", ["Add a README file to your repository."]⟩

/-- The summary scan: first paragraph that is non-empty, does not start (after
stripping) with `#`, and has length greater than 30; markdown markers
`[#*_]` are removed from the stripped paragraph. -/
def firstSummaryParagraph : List (List Char) → Option (List Char)
  | [] => none
  | p :: rest =>
    if ¬ p.isEmpty ∧ ¬ ['#'].isPrefixOf (pyStrip isAsciiSpace p) ∧ p.length > 30 then
      some ((pyStrip isAsciiSpace p).filter fun c => ¬ (c = '#' ∨ c = '*' ∨ c = '_'))
    else firstSummaryParagraph rest

/-- The negative lookbehind `(?<!\.\s)`: blocked when the char two back is a
period and the char one back is whitespace. -/
def precededByDotSpace (p1 p2 : Option Char) : Bool :=
  match p1, p2 with
  | some x, some y => y = '.' && isAsciiSpace x
  | _, _ => false

/-- Model of `re.findall('(?<!\.\s)[A-Z][a-zA-Z]+', readme)`: maximal runs of
letters starting with an uppercase letter and at least two characters long,
not preceded by a period-plus-whitespace pair; scanning resumes after each
match, tracking the two preceding characters.
-/
def scanCapitalized : List Char → Option Char → Option Char → List (List Char)
  | [], _, _ => []
  | c :: rest, p1, p2 =>
    if isUpperAscii c ∧ ¬ (rest.takeWhile isAlphaAscii).isEmpty ∧
        ¬ precededByDotSpace p1 p2 then
      let m := c :: rest.takeWhile isAlphaAscii
      m :: scanCapitalized (rest.dropWhile isAlphaAscii) m.getLast? m.dropLast.getLast?
    else scanCapitalized rest (some c) p1
  termination_by l _ _ => l.length
  decreasing_by
  all_goals
    have hA : (rest.dropWhile isAlphaAscii).length ≤ rest.length :=
      (List.dropWhile_sublist _).length_le
    simp only [List.length_cons]
    omega

/-- Model of `re.split('[.!?]+', readme)` — split on maximal runs of sentence-ending
punctuation. -/
def isSentenceEnd (c : Char) : Bool := c = '.' ∨ c = '!' ∨ c = '?'

/-- Auxiliary splitter on maximal runs of characters satisfying `p`. -/
def splitOnRunsAux (p : Char → Bool) : List Char → List Char → List (List Char)
  | acc, [] => [acc.reverse]
  | acc, c :: rest =>
    if p c then acc.reverse :: splitOnRunsAux p [] (rest.dropWhile p)
    else splitOnRunsAux p (c :: acc) rest
  termination_by _ l => l.length
  decreasing_by
  all_goals
    have hA : (rest.dropWhile p).length ≤ rest.length :=
      (List.dropWhile_sublist _).length_le
    simp only [List.length_cons]
    omega

/-- Split on maximal runs of characters satisfying `p`. -/
def splitOnRuns (p : Char → Bool) (l : List Char) : List (List Char) :=
  splitOnRunsAux p [] l

/-- Python `len(s.split())`: the number of maximal non-whitespace runs. -/
def wordCount (l : List Char) : Nat :=
  (tokenize (fun c => ¬ isAsciiSpace c) l).length

/-- The positive word list of the sentiment heuristic. -/
def positiveWords : List String :=
  ["good", "great", "excellent", "amazing", "awesome", "best", "better", "improved"]

/-- The negative word list of the sentiment heuristic. -/
def negativeWords : List String :=
  ["bad", "poor", "terrible", "worst", "difficult", "hard", "complex", "issue", "problem"]

/-- Model of `re.search('#+\s+<word>', readme, re.IGNORECASE)`: somewhere in the text,
a run of `#`, at least one whitespace character, then the section word
(compared case-insensitively). -/
def hasHashSection (word : String) : List Char → Bool
  | [] => false
  | c :: rest =>
    (c = '#' ∧
      ¬ ((rest.dropWhile (· = '#')).takeWhile isAsciiSpace).isEmpty ∧
      word.data.isPrefixOf
        (((rest.dropWhile (· = '#')).dropWhile isAsciiSpace).map pyToLower)) ||
    hasHashSection word rest

/-- Embedding of `LocalProvider.analyze_readme` (`local_provider.py`, lines 157-270).  The
readability thresholds compare the mean sentence length `S / C`; the model
uses the exact comparisons `S > 25 * C` and `S < 10 * C` in place of the
source's floating-point division.
-/
def localAnalyzeReadme (readme : String) : ReadmeAnalysis :=
  if readme = "" then emptyReadmeAnalysis
  else
    let paragraphs := splitParagraphs readme.data
    let summary0 :=
      match firstSummaryParagraph paragraphs with
      | some s => s
      | none =>
        match scanHeaders readme.data with
        | h :: _ => h
        | [] => []
    let headerTopics :=
      (scanHeaders readme.data).foldl
        (fun acc h =>
          (lowerWords h).foldl
            (fun acc w =>
              if w.length > 3 ∧ String.mk w ∉ providerStopwords ∧ String.mk w ∉ acc
              then acc ++ [String.mk w] else acc) acc) []
    let commonWords :=
      (mostCommon 10 (lowerWords readme.data)).filter
        (fun w => w.length > 3 ∧ String.mk w ∉ providerStopwords)
    let topics :=
      commonWords.foldl
        (fun acc w => if String.mk w ∉ acc then acc ++ [String.mk w] else acc) headerTopics
    let entities :=
      (scanCapitalized readme.data none none).foldl
        (fun acc w =>
          let s := String.mk w
          if s ∉ acc ∧ s ∉ (["I", "The", "A", "An", "This", "That"] : List String)
          then acc ++ [s] else acc) []
    let sentences := splitOnRuns isSentenceEnd readme.data
    let totalWords := (sentences.map wordCount).sum
    let readability :=
      if sentences.length ≠ 0 ∧ totalWords > 25 * sentences.length then "complex"
      else if sentences.length = 0 ∨ totalWords < 10 * sentences.length then "simple"
      else "good"
    let positiveCount := (positiveWords.filter (fun w => strIn w (lowerStr readme))).length
    let negativeCount := (negativeWords.filter (fun w => strIn w (lowerStr readme))).length
    let sentiment :=
      if positiveCount > negativeCount * 2 then "positive"
      else if negativeCount > positiveCount * 2 then "negative"
      else "neutral"
    let suggestions :=
      (if readme.data.length < 500 then ["Add more content to your README file."] else []) ++
      (if ¬ hasHashSection "installation" readme.data
        then ["Add an Installation section to your README."] else []) ++
      (if ¬ hasHashSection "usage" readme.data
        then ["Add a Usage section to your README."] else []) ++
      (if ¬ hasHashSection "contributing" readme.data
        then ["Add a Contributing section to your README."] else []) ++
      (if ¬ hasHashSection "license" readme.data
        then ["Add a License section to your README."] else [])
    ⟨String.mk summary0, topics.take 10, entities.take 10, sentiment, readability, suggestions⟩

/-! ### `None`-input behaviour of the local provider

The Python signatures declare `readme: str`, but the specified failure
semantics also quantify over `None` fields.  The wrappers below model a
`None` readme (`Option.none`) and return `Except.error` exactly where the
source would raise. -/

/-- Does an `Except` hold a success value (a Python call that returned
rather than raised)? -/
def exceptOk {ε α : Type} : Except ε α → Bool
  | Except.ok _ => true
  | Except.error _ => false

/-- Embedding of `LocalProvider.generate_description` with an optional readme: a `None`
readme only reaches the guarded `if readme:` block, so the call behaves
exactly like an empty readme and never raises. -/
def localGenerateDescriptionOpt (repo_name : String) (languages : List String)
    (topics : List String) (readme : Option String) : Except String String :=
  match readme with
  | none => Except.ok (localGenerateDescription repo_name languages topics "")
  | some r => Except.ok (localGenerateDescription repo_name languages topics r)

/-- Embedding of `LocalProvider.generate_topics` with an optional readme: the
`common_topics` loop evaluates `readme.lower()` outside the `if readme:`
guard (`local_provider.py`, line 140), so a `None` readme raises
`AttributeError` before any topic of the loop is tested. -/
def localGenerateTopicsOpt (repo_name : String) (languages : List String)
    (current_topics : List String) (readme : Option String) :
    Except String (List String) :=
  match readme with
  | none => Except.error "AttributeError"
  | some r => Except.ok (localGenerateTopics repo_name languages current_topics r)

/-- Embedding of `LocalProvider.analyze_readme` with an optional readme: `if not readme:`
treats `None` like the empty string. -/
def localAnalyzeReadmeOpt (readme : Option String) : Except String ReadmeAnalysis :=
  match readme with
  | none => Except.ok emptyReadmeAnalysis
  | some r => Except.ok (localAnalyzeReadme r)

/-- Embedding of `LocalProvider.generate_readme`, which already takes an optional existing
readme; `if existing_readme and ...` short-circuits on `None`. -/
def localGenerateReadmeOpt (repo_name : String) (languages : List String)
    (topics : List String) (description : String) (existing_readme : Option String) :
    Except String String :=
  Except.ok (localGenerateReadme repo_name languages topics description existing_readme)

/-! ### The SEO Generator (`seo_generator/generator.py`, `SEOGenerator`) -/

/-- The active provider of a `SEOGenerator`, as the three generation methods
the orchestrator calls; a raising Python call is an `Except.error`. -/
structure ProviderM where
  genDescription : String → List String → List String → String → Except String String
  genTopics : String → List String → List String → String → Except String (List String)
  genReadme : String → List String → List String → String → Option String → Except String String

/-- Embedding of `SEOGenerator.generate_description` (lines 35-58): on a provider
exception, fall back to the module-level rule-based `generate_description`. -/
def seoGenerateDescription (p : ProviderM) (repo_name : String)
    (languages : List String) (topics : List String) (readme : String) : String :=
  match p.genDescription repo_name languages topics readme with
  | Except.ok d => d
  | Except.error _ => generatorGenerateDescription repo_name languages topics readme

/-- Embedding of `SEOGenerator.generate_topics` (lines 60-83): on a provider exception,
fall back to the module-level rule-based `generate_topics`. -/
def seoGenerateTopics (p : ProviderM) (repo_name : String)
    (languages : List String) (current_topics : List String) (readme : String) :
    List String :=
  match p.genTopics repo_name languages current_topics readme with
  | Except.ok ts => ts
  | Except.error _ => generatorGenerateTopics repo_name languages current_topics readme

/-- Embedding of `SEOGenerator.generate_readme` (lines 85-111): on a provider exception,
fall back to the module-level rule-based `generate_readme`. -/
def seoGenerateReadme (p : ProviderM) (repo_name : String) (languages : List String)
    (topics : List String) (description : String) (existing_readme : Option String) :
    String :=
  match p.genReadme repo_name languages topics description existing_readme with
  | Except.ok r => r
  | Except.error _ =>
    generatorGenerateReadme repo_name languages topics description existing_readme

/-- The `changes` record of `optimize_repository`. -/
structure Changes where
  description : Bool
  topics : Bool
  readme : Bool
  deriving Repr, DecidableEq

/-- The dictionary returned by `SEOGenerator.optimize_repository`; `analysis`
is the opaque result of the content-analyzer collaborator. -/
structure OptimizationResult (α : Type) where
  name : String
  languages : List String
  current_description : String
  new_description : String
  current_topics : List String
  new_topics : List String
  current_readme : String
  new_readme : String
  analysis : α
  changes : Changes

/-- Python `set(a) != set(b)` is `¬ pySetEqStr a b`: two lists are set-equal
iff each is contained in the other. -/
def pySetEqStr (a b : List String) : Bool :=
  a.all (fun x => x ∈ b) && b.all (fun x => x ∈ a)

/-- The `new_description` decision of `optimize_repository`: regenerate only
when the current description is empty or shorter than 30 characters. -/
def seoNewDescription (p : ProviderM) (repo_name : String) (languages : List String)
    (current_topics : List String) (current_description : String) (readme : String) :
    String :=
  if current_description = "" ∨ current_description.data.length < 30 then
    seoGenerateDescription p repo_name languages current_topics readme
  else current_description

/-- The `new_readme` decision of `optimize_repository`: regenerate (from the
new topics and new description, passing the current readme as the existing
one) only when the current README is empty or shorter than 100 characters. -/
def seoNewReadme (p : ProviderM) (repo_name : String) (languages : List String)
    (new_topics : List String) (new_description : String) (readme : String) : String :=
  if readme = "" ∨ readme.data.length < 100 then
    seoGenerateReadme p repo_name languages new_topics new_description (some readme)
  else readme

/-- Embedding of the ANALYZE step of `SEOGenerator.optimize_repository`
(`seo_generator/generator.py`, line 129).  The call passes five keyword
arguments (`repo_name=...`, `description=...`, `languages=...`, `topics=...`,
`readme=...`), but `self.analyzer` is the `ContentAnalyzer` defined in
`content_analyzer/__init__.py`, whose `analyze_repository(self, repo_data)`
(line 78 of that module) takes one positional dictionary — the
keyword-compatible class of `content_analyzer/analyzer.py` is shadowed by the
package module.  The call therefore raises `TypeError` for every input, and
no `try`/`except` surrounds it. -/
def seoAnalyzeRepository (repo_name description : String)
    (languages topics : List String) (readme : String) : Except String Unit :=
  Except.error "TypeError"

/-- The remainder of `SEOGenerator.optimize_repository`
(`seo_generator/generator.py`, lines 137-181), as it would run after the
ANALYZE step: the description is regenerated only when empty or shorter than
30 characters, the topics are always regenerated, the README only when empty
or shorter than 100 characters, and `changes` compares topics as sets and
the other fields as strings.  Because the ANALYZE call raises, this code is
unreachable in the source; the `analysis` field is therefore `Unit`. -/
def seoOptimizeRepositoryCore (p : ProviderM)
    (repo_name : String) (languages : List String) (current_topics : List String)
    (current_description : String) (readme : String) : OptimizationResult Unit :=
  { name := repo_name
    languages := languages
    current_description := current_description
    new_description :=
      seoNewDescription p repo_name languages current_topics current_description readme
    current_topics := current_topics
    new_topics := seoGenerateTopics p repo_name languages current_topics readme
    current_readme := readme
    new_readme := seoNewReadme p repo_name languages
      (seoGenerateTopics p repo_name languages current_topics readme)
      (seoNewDescription p repo_name languages current_topics current_description readme)
      readme
    analysis := ()
    changes :=
      { description :=
          seoNewDescription p repo_name languages current_topics current_description
              readme !=
            current_description
        topics :=
          ! pySetEqStr (seoGenerateTopics p repo_name languages current_topics readme)
            current_topics
        readme :=
          seoNewReadme p repo_name languages
              (seoGenerateTopics p repo_name languages current_topics readme)
              (seoNewDescription p repo_name languages current_topics current_description
                readme)
              readme !=
            readme } }

/-- Embedding of `SEOGenerator.optimize_repository`
(`seo_generator/generator.py`, lines 113-181): the ANALYZE step runs first
and raises `TypeError` on every input (see `seoAnalyzeRepository`), so the
record of `seoOptimizeRepositoryCore` is never produced and the method never
returns. -/
def seoOptimizeRepository (p : ProviderM)
    (repo_name : String) (languages : List String) (current_topics : List String)
    (current_description : String) (readme : String) :
    Except String (OptimizationResult Unit) :=
  match seoAnalyzeRepository repo_name current_description languages current_topics
      readme with
  | Except.error e => Except.error e
  | Except.ok _ =>
    Except.ok (seoOptimizeRepositoryCore p repo_name languages current_topics
      current_description readme)

/-- The `ProviderM` view of `LocalProvider` (whose calls on string inputs
never raise). -/
def localProviderM : ProviderM where
  genDescription := fun n ls ts r => Except.ok (localGenerateDescription n ls ts r)
  genTopics := fun n ls cur r => Except.ok (localGenerateTopics n ls cur r)
  genReadme := fun n ls ts d e => Except.ok (localGenerateReadme n ls ts d e)

/-- A provider whose every call raises, modelling a remote backend that is
down (used to exercise the fallback path). -/
def failingProviderM : ProviderM where
  genDescription := fun _ _ _ _ => Except.error "boom"
  genTopics := fun _ _ _ _ => Except.error "boom"
  genReadme := fun _ _ _ _ _ => Except.error "boom"

/-! ### Ollama provider transport-failure handling
(`src/llm_providers/ollama_provider.py`) -/

/-- Outcome of the model-availability check against `GET /api/tags`:
any exception is swallowed by the inner `try` (`raised`); a non-200 status
aborts with an error string (`notOk`); a 200 response yields the parsed model
names (`ok`) — the source's three parsing branches all reduce to extracting
the `name` fields, which the model carries directly. -/
inductive TagsOutcome
  | raised
  | notOk
  | ok (models : List String)

/-- The error-detail branch taken when a non-200 `POST /api/generate`
response body is inspected: a JSON object with an `error` key, a JSON body
without one, or an unparsable body whose raw text is appended. -/
inductive ErrDetail
  | jsonWithError (e : String)
  | jsonNoError
  | parseFail (text : String)

/-- Outcome of `POST /api/generate`: connection failure, timeout, any other
exception, or a response with a status code, the parsed `response` field
(used on 200) and the error detail (used otherwise). -/
inductive PostOutcome
  | connError
  | timeoutErr
  | raised (msg : String)
  | resp (status : Nat) (responseField : String) (detail : ErrDetail)

/-- An apostrophe (the source quotes the model name with it). -/
def sq : String := String.singleton (Char.ofNat 39)

/-- The fallback model names tried by the availability check. -/
def ollamaCommonModels : List String :=
  ["mistral:latest", "llama2:latest", "deepseek-coder", "deepseek-r1:7b", "neural-chat"]

/-- The early-return message of the availability check, when there is one.
When the check merely swaps `self.model` for an available alternative the
return value of the failure paths below is unaffected. -/
def ollamaModelCheck (apiBase mdl : String) : TagsOutcome → Option String
  | TagsOutcome.raised => none
  | TagsOutcome.notOk => some ("Error: Ollama API not available at " ++ apiBase)
  | TagsOutcome.ok models =>
    if mdl ∈ models then none
    else if ¬ (ollamaCommonModels.filter (fun m => m ∈ models)).isEmpty then none
    else if ¬ models.isEmpty then none
    else some ("Error: Model " ++ sq ++ mdl ++ sq ++
      " not found and no alternatives available.")

/-- The error message assembled for a non-200 `POST /api/generate` response. -/
def ollamaErrorMessage (status : Nat) : ErrDetail → String
  | ErrDetail.jsonWithError e =>
    "Error from Ollama API: " ++ toString status ++ " - " ++ e
  | ErrDetail.jsonNoError => "Error from Ollama API: " ++ toString status
  | ErrDetail.parseFail text =>
    "Error from Ollama API: " ++ toString status ++ " - " ++ text

/-- Embedding of `OllamaProvider._generate_completion` (`ollama_provider.py`, lines 34-137),
with the HTTP transport as oracle parameters.  The prompt argument only
influences the backend, which the oracle already abstracts.  Every branch
returns a string; no failure escapes as an exception.
-/
def ollamaGenerateCompletion (apiBase mdl : String) (tags : TagsOutcome)
    (post : PostOutcome) (_prompt : String) : String :=
  match ollamaModelCheck apiBase mdl tags with
  | some e => e
  | none =>
    match post with
    | PostOutcome.connError =>
      "Error: Could not connect to Ollama API. Make sure Ollama is running."
    | PostOutcome.timeoutErr =>
      "Error: Request to Ollama API timed out. The model might be too large or busy."
    | PostOutcome.raised msg => "Error generating completion with Ollama: " ++ msg
    | PostOutcome.resp status responseField detail =>
      if status = 200 then responseField
      else ollamaErrorMessage status detail

/-- The prompt built by `OllamaProvider.generate_description` (triple-quoted
in the source, with its indentation and the README truncated to 1000
characters). -/
def ollamaDescriptionPrompt (repo_name : String) (languages : List String)
    (topics : List String) (readme : String) : String :=
  "\n        Generate a concise, SEO-friendly description for a GitHub repository with the following details:\n\n        Repository Name: "
    ++ repo_name
    ++ "\n        Programming Languages: " ++ joinSep ", " languages
    ++ "\n        Current Topics: " ++ joinSep ", " topics
    ++ "\n\n        README Content:\n        " ++ String.mk (readme.data.take 1000)
    ++ "  # Limit README content to avoid token limits\n\n        The description should:\n        1. Be 1-2 sentences (maximum 160 characters)\n        2. Include key technologies and purpose\n        3. Be clear and informative\n        4. Use relevant keywords naturally\n\n        Return only the description text without quotes or additional commentary.\n        "

/-- Embedding of `OllamaProvider.generate_description` (lines 139-178): the completion —
generated text or error message alike — truncated to 160 characters with a
trailing ellipsis when longer. -/
def ollamaGenerateDescription (apiBase mdl : String) (tags : TagsOutcome)
    (post : PostOutcome) (repo_name : String) (languages : List String)
    (topics : List String) (readme : String) : String :=
  pyTruncate 160 (ollamaGenerateCompletion apiBase mdl tags post
    (ollamaDescriptionPrompt repo_name languages topics readme))

/-! ### Concrete inputs used by counterexamples and witnesses -/

/-- A 36-character topic whose 35th character is a hyphen. -/
def hyphenAt35 : String := String.mk (List.replicate 34 'a' ++ ['-', 'b'])

/-- A README of exactly 100 characters. -/
def readme100 : String := String.mk (List.replicate 100 'a')

/-- A README of exactly 101 characters. -/
def readme101 : String := String.mk (List.replicate 101 'a')

/-- A README whose first line has 40 characters (between the module-level
threshold 30 and the provider threshold 50). -/
def readme40 : String := "A small utility for doing various things"

/-- Twenty-one pairwise distinct current topics. -/
def topics21 : List String := (List.range 21).map (fun i => "t" ++ toString i)

/-- Adjacent characters are never both hyphens (the shape guaranteed by the
validator's hyphen collapse). -/
def RhSep : Char → Char → Prop := fun a b => ¬ (a = '-' ∧ b = '-')

/-! ## Helper lemmas -/

theorem allowed_ranges {c : Char} (h : isLowerAlnumHyphen c = true) :
    (97 ≤ c.toNat ∧ c.toNat ≤ 122) ∨ (48 ≤ c.toNat ∧ c.toNat ≤ 57) ∨ c.toNat = 45 := by
  simp only [isLowerAlnumHyphen, Bool.or_eq_true, Bool.and_eq_true,
    decide_eq_true_eq] at h
  omega

theorem pyToLower_allowed {c : Char} (h : isLowerAlnumHyphen c = true) :
    pyToLower c = c := by
  have hr := allowed_ranges h
  rw [pyToLower, if_neg]
  omega

theorem space_not_allowed {c : Char} (h : isLowerAlnumHyphen c = true) :
    isAsciiSpace c = false := by
  have hr := allowed_ranges h
  simp only [isAsciiSpace, decide_eq_false_iff_not]
  omega

theorem spaceUnderscore_not_allowed {c : Char} (h : isLowerAlnumHyphen c = true) :
    isSpaceUnderscore c = false := by
  have hr := allowed_ranges h
  have hs := space_not_allowed h
  simp only [isSpaceUnderscore, hs, Bool.false_or, decide_eq_false_iff_not]
  omega

theorem map_pyToLower_id {l : List Char} (h : ∀ c ∈ l, isLowerAlnumHyphen c = true) :
    l.map pyToLower = l := by
  induction l with
  | nil => rfl
  | cons c t ih =>
    simp only [List.map_cons]
    rw [pyToLower_allowed (h c (List.mem_cons_self c t)),
      ih (fun x hx => h x (List.mem_cons_of_mem _ hx))]

theorem dropWhile_eq_self_of {p : Char → Bool} {l : List Char}
    (h : ∀ c ∈ l, p c = false) : l.dropWhile p = l := by
  cases l with
  | nil => rfl
  | cons c t =>
    rw [List.dropWhile_cons, if_neg]
    simp [h c (List.mem_cons_self c t)]

theorem mem_dropTrailing {p : Char → Bool} {l : List Char} {c : Char}
    (h : c ∈ dropTrailing p l) : c ∈ l := by
  unfold dropTrailing at h
  rw [List.mem_reverse] at h
  exact List.mem_reverse.mp ((List.dropWhile_sublist p).subset h)

theorem mem_pyStrip {p : Char → Bool} {l : List Char} {c : Char}
    (h : c ∈ pyStrip p l) : c ∈ l :=
  (List.dropWhile_sublist p).subset (mem_dropTrailing h)

theorem pyStrip_eq_self {p : Char → Bool} {l : List Char}
    (h : ∀ c ∈ l, p c = false) : pyStrip p l = l := by
  unfold pyStrip dropTrailing
  rw [dropWhile_eq_self_of h,
    dropWhile_eq_self_of (fun c hc => h c (List.mem_reverse.mp hc)),
    List.reverse_reverse]

theorem dropTrailing_eq_self {p : Char → Bool} {l : List Char} {c : Char}
    (hlast : l.getLast? = some c) (hp : p c = false) : dropTrailing p l = l := by
  unfold dropTrailing
  have hrev : l.reverse.head? = some c := by rw [List.head?_reverse]; exact hlast
  cases hr : l.reverse with
  | nil => rw [hr] at hrev; cases hrev
  | cons a t =>
    rw [hr] at hrev
    have ha : a = c := by simpa using hrev
    have hpa : p a = false := by rw [ha]; exact hp
    have hstep : List.dropWhile p (a :: t) = a :: t := by
      rw [List.dropWhile_cons, if_neg (by simp [hpa])]
    rw [hstep, ← hr, List.reverse_reverse]

theorem squashRuns_cons (p : Char → Bool) (rep a : Char) (t : List Char) (b : Bool) :
    squashRuns p rep (a :: t) b =
      if p a = true then
        (if b = true then squashRuns p rep t true else rep :: squashRuns p rep t true)
      else a :: squashRuns p rep t false := rfl

theorem squash_mem {p : Char → Bool} {rep : Char} :
    ∀ {l : List Char} {b : Bool} {c : Char},
      c ∈ squashRuns p rep l b → c = rep ∨ c ∈ l := by
  intro l
  induction l with
  | nil => intro b c h; cases h
  | cons a t ih =>
    intro b c h
    by_cases hp : p a = true
    · cases b with
      | true =>
        simp only [squashRuns, hp, if_true] at h
        rcases ih h with h' | h'
        · exact Or.inl h'
        · exact Or.inr (List.mem_cons_of_mem _ h')
      | false =>
        simp only [squashRuns, hp, if_true] at h
        rcases List.mem_cons.mp h with h' | h'
        · exact Or.inl h'
        · rcases ih h' with h'' | h''
          · exact Or.inl h''
          · exact Or.inr (List.mem_cons_of_mem _ h'')
    · simp only [squashRuns, hp] at h
      rcases List.mem_cons.mp h with h' | h'
      · exact Or.inr (h' ▸ List.mem_cons_self a t)
      · rcases ih h' with h'' | h''
        · exact Or.inl h''
        · exact Or.inr (List.mem_cons_of_mem _ h'')

theorem squash_eq_self {p : Char → Bool} {rep : Char} {l : List Char}
    (h : ∀ c ∈ l, p c = false) : ∀ b, squashRuns p rep l b = l := by
  induction l with
  | nil => intro b; rfl
  | cons a t ih =>
    intro b
    have ha : p a = false := h a (List.mem_cons_self a t)
    simp only [squashRuns, ha, Bool.false_eq_true, if_false]
    rw [ih (fun c hc => h c (List.mem_cons_of_mem _ hc)) false]

theorem squash_hyphen_head :
    ∀ {l : List Char} {c : Char},
      (squashRuns isHyphen '-' l true).head? = some c → isHyphen c = false := by
  intro l
  induction l with
  | nil => intro c h; cases h
  | cons a t ih =>
    intro c h
    by_cases hp : isHyphen a = true
    · simp only [squashRuns, hp, if_true] at h
      exact ih h
    · simp only [squashRuns, hp] at h
      have : a = c := by simpa using h
      rw [← this]
      simpa using hp

theorem squash_hyphen_chain :
    ∀ (l : List Char) (b : Bool), List.Chain' RhSep (squashRuns isHyphen '-' l b) := by
  intro l
  induction l with
  | nil => intro b; simp [squashRuns]
  | cons a t ih =>
    intro b
    rw [squashRuns_cons]
    by_cases hp : isHyphen a = true
    · rw [if_pos hp]
      cases b with
      | true => rw [if_pos rfl]; exact ih true
      | false =>
        rw [if_neg (by simp)]
        rw [List.chain'_cons']
        refine ⟨?_, ih true⟩
        intro y hy
        have hy' : (squashRuns isHyphen '-' t true).head? = some y := Option.mem_def.mp hy
        have hne := squash_hyphen_head hy'
        intro hcon
        rw [hcon.2] at hne
        simp [isHyphen] at hne
    · rw [if_neg hp]
      rw [List.chain'_cons']
      refine ⟨?_, ih false⟩
      intro y _ hcon
      rw [hcon.1] at hp
      simp [isHyphen] at hp

theorem squash_hyphen_id :
    ∀ (l : List Char), List.Chain' RhSep l →
      squashRuns isHyphen '-' l false = l ∧
        (l.head? ≠ some '-' → squashRuns isHyphen '-' l true = l) := by
  intro l
  induction l with
  | nil => intro _; exact ⟨rfl, fun _ => rfl⟩
  | cons a t ih =>
    intro h
    rw [List.chain'_cons'] at h
    obtain ⟨hhd, htl⟩ := h
    have iht := ih htl
    constructor
    · by_cases hp : isHyphen a = true
      · have ha : a = '-' := by simpa [isHyphen] using hp
        rw [squashRuns_cons, if_pos hp, if_neg (by simp)]
        rw [ha]
        congr 1
        apply iht.2
        intro hcon
        cases ht' : t with
        | nil => rw [ht'] at hcon; cases hcon
        | cons z zs =>
          rw [ht'] at hcon
          have hz : z = '-' := by simpa using hcon
          have := hhd z (by rw [ht']; rfl)
          exact this ⟨ha, hz⟩
      · rw [squashRuns_cons, if_neg hp, iht.1]
    · intro hne
      have hp : isHyphen a = false := by
        cases hq : isHyphen a
        · rfl
        · exfalso
          have ha : a = '-' := by simpa [isHyphen] using hq
          exact hne (by rw [ha]; rfl)
      rw [squashRuns_cons, if_neg (by simp [hp]), iht.1]

theorem chain_dropWhile {p : Char → Bool} {l : List Char}
    (h : List.Chain' RhSep l) : List.Chain' RhSep (l.dropWhile p) := by
  induction l with
  | nil => exact h
  | cons a t ih =>
    rw [List.dropWhile_cons]
    by_cases hp : p a = true
    · rw [if_pos hp]
      exact ih h.tail
    · rw [if_neg hp]
      exact h

theorem chain_reverse_of {l : List Char} (h : List.Chain' RhSep l) :
    List.Chain' RhSep l.reverse := by
  rw [List.chain'_reverse]
  exact h.imp (fun a b hab hc => hab ⟨hc.2, hc.1⟩)

theorem chain_pyStrip {p : Char → Bool} {l : List Char}
    (h : List.Chain' RhSep l) : List.Chain' RhSep (pyStrip p l) := by
  unfold pyStrip dropTrailing
  exact chain_reverse_of (chain_dropWhile (chain_reverse_of (chain_dropWhile h)))

/-- Every character of the validator's normalized core is in `[a-z0-9-]`. -/
theorem validate_core_allowed {t : List Char} {c : Char}
    (h : c ∈ validateCore t) : isLowerAlnumHyphen c = true := by
  unfold validateCore at h
  have h1 := mem_pyStrip h
  rcases squash_mem h1 with h2 | h2
  · rw [h2]; decide
  · exact (List.mem_filter.mp h2).2

/-- The validator's normalized core has no two adjacent hyphens. -/
theorem validate_core_chain (t : List Char) : List.Chain' RhSep (validateCore t) :=
  chain_pyStrip (squash_hyphen_chain _ false)

/-- Structural facts about every non-empty output of the validator: all
characters in `[a-z0-9-]`, an alphanumeric head, length at most 35, and no
two adjacent hyphens. -/
theorem validate_props (s : String) (h : validate_github_topic s ≠ "") :
    (∀ c ∈ (validate_github_topic s).data, isLowerAlnumHyphen c = true) ∧
    (∃ c cs, (validate_github_topic s).data = c :: cs ∧ isLowerAlnum c = true) ∧
    (validate_github_topic s).data.length ≤ 35 ∧
    List.Chain' RhSep (validate_github_topic s).data := by
  unfold validate_github_topic at *
  by_cases hs : s = ""
  · rw [if_pos hs] at h; exact absurd rfl h
  · rw [if_neg hs] at *
    by_cases hc : ',' ∈ loweredStripped s
    · rw [if_pos hc] at h; exact absurd rfl h
    · rw [if_neg hc] at *
      cases ht2 : validateCore (loweredStripped s) with
      | nil => rw [ht2] at h; simp at h
      | cons c0 cs0 =>
        rw [ht2] at h
        have hemp : ((c0 :: cs0 : List Char).isEmpty) = false := rfl
        rw [hemp] at h ⊢
        simp only [Bool.false_eq_true, if_false] at h ⊢
        by_cases hh : isLowerAlnum ((c0 :: cs0).headD ' ') = true
        · rw [if_pos hh] at h ⊢
          have hdata : (String.mk (List.take 35 (c0 :: cs0))).data =
              List.take 35 (c0 :: cs0) := rfl
          rw [hdata]
          refine ⟨?_, ?_, ?_, ?_⟩
          · intro c hcmem
            have hmem : c ∈ (c0 :: cs0 : List Char) :=
              (List.take_sublist 35 (c0 :: cs0)).subset hcmem
            rw [← ht2] at hmem
            exact validate_core_allowed hmem
          · refine ⟨c0, cs0.take 34, rfl, ?_⟩
            simpa using hh
          · have hlt := List.length_take 35 (c0 :: cs0)
            omega
          · have hch : List.Chain' RhSep (c0 :: cs0) := ht2 ▸ validate_core_chain _
            exact hch.take 35
        · rw [if_neg hh] at h; exact absurd rfl h

/-- The capping loop never grows past `max cap (result.length + 1)`. -/
theorem capLoop_length (cap : Nat) :
    ∀ (rest result : List String),
      (capLoop cap result rest).length ≤ max cap (result.length + 1) := by
  intro rest
  induction rest with
  | nil => intro result; unfold capLoop; omega
  | cons t ts ih =>
    intro result
    unfold capLoop
    by_cases hmem : t ∈ result
    · rw [if_pos hmem]
      exact ih result
    · rw [if_neg hmem]
      by_cases hlen : (result ++ [t]).length ≥ cap
      · rw [if_pos hlen]
        simp only [List.length_append, List.length_cons, List.length_nil]
        omega
      · rw [if_neg hlen]
        have := ih (result ++ [t])
        simp only [List.length_append, List.length_cons, List.length_nil] at *
        omega

/-- Invariants of the deduplicating fold of `updateRepoValidTopics`: every
accumulated element is a non-empty validator output, and the accumulator has
no duplicates. -/
theorem updateRepoFold_invariant :
    ∀ (ts : List String) (acc : List String),
      (∀ x ∈ acc, x ≠ "" ∧ ∃ t0, x = validate_github_topic t0) → acc.Nodup →
      (∀ x ∈ ts.foldl updateRepoStep acc, x ≠ "" ∧ ∃ t0, x = validate_github_topic t0) ∧
      (ts.foldl updateRepoStep acc).Nodup := by
  intro ts
  induction ts with
  | nil => intro acc h hnd; exact ⟨h, hnd⟩
  | cons t ts ih =>
    intro acc h hnd
    rw [List.foldl_cons]
    unfold updateRepoStep
    by_cases hcond : validate_github_topic t ≠ "" ∧ validate_github_topic t ∉ acc
    · rw [if_pos hcond]
      apply ih
      · intro x hx
        rcases List.mem_append.mp hx with hx' | hx'
        · exact h x hx'
        · have hxv : x = validate_github_topic t := by simpa using hx'
          exact ⟨hxv ▸ hcond.1, t, hxv⟩
      · rw [List.nodup_append]
        refine ⟨hnd, List.nodup_singleton _, ?_⟩
        intro a ha ha'
        have hav : a = validate_github_topic t := by simpa using ha'
        exact hcond.2 (hav ▸ ha)
    · rw [if_neg hcond]
      exact ih acc h hnd

/-- A character permitted by `isLowerAlnum` is not a hyphen. -/
theorem hyphen_not_lowerAlnum {c : Char} (h : isLowerAlnum c = true) :
    isHyphen c = false := by
  simp only [isHyphen, decide_eq_false_iff_not]
  intro hc
  subst hc
  exact absurd h (by decide)

/-! ## Claim theorems -/

/-- C2 (counterexample): the validator is not idempotent.  On the
36-character input `"a"*34 ++ "-b"` every normalization step passes, the
hyphen-strip happens before the final truncation to 35 characters, and the
truncation re-exposes a trailing hyphen; validating the result again strips
that hyphen, giving a different string. -/
theorem validate_not_idempotent_at_truncation :
    validate_github_topic (validate_github_topic hyphenAt35) ≠
      validate_github_topic hyphenAt35 := by decide

/-- C2 (amended): the topic validator is idempotent on every input whose
validated form does not end in a hyphen — equivalently, except when the final
35-character truncation cuts immediately after a hyphen, `validate(validate(s))
= validate(s)`. -/
theorem validate_github_topic_idempotent_unless_truncated (s : String)
    (hlast : (validate_github_topic s).data.getLast? ≠ some '-') :
    validate_github_topic (validate_github_topic s) = validate_github_topic s := by
  by_cases h : validate_github_topic s = ""
  · rw [h]; decide
  · obtain ⟨hall, ⟨c0, cs0, hdata, hc0⟩, hlen, hchain⟩ := validate_props s h
    generalize hout : validate_github_topic s = out at *
    unfold validate_github_topic
    rw [if_neg h]
    have hls : loweredStripped out = out.data := by
      unfold loweredStripped
      rw [map_pyToLower_id hall]
      exact pyStrip_eq_self (fun c hc => space_not_allowed (hall c hc))
    rw [hls]
    have hcomma : ',' ∉ out.data := by
      intro hmem
      exact absurd (hall ',' hmem) (by decide)
    rw [if_neg hcomma]
    have hcore : validateCore out.data = out.data := by
      unfold validateCore
      rw [squash_eq_self (fun c hc => spaceUnderscore_not_allowed (hall c hc)) false,
        List.filter_eq_self.mpr hall, (squash_hyphen_id out.data hchain).1]
      unfold pyStrip
      have hdw : out.data.dropWhile isHyphen = out.data := by
        rw [hdata, List.dropWhile_cons, if_neg]
        simp [hyphen_not_lowerAlnum hc0]
      rw [hdw]
      cases hgl : out.data.getLast? with
      | none =>
        rw [List.getLast?_eq_none_iff] at hgl
        rw [hgl] at hdata
        cases hdata
      | some c =>
        refine dropTrailing_eq_self hgl ?_
        have hcne : c ≠ '-' := by
          intro hcc
          rw [hcc] at hgl
          exact hlast hgl
        simp [isHyphen, hcne]
    rw [hcore]
    have hemp : out.data.isEmpty = false := by rw [hdata]; rfl
    rw [hemp]
    simp only [Bool.false_eq_true, if_false]
    have hhd : isLowerAlnum (out.data.headD ' ') = true := by
      rw [hdata]
      simpa using hc0
    rw [if_pos hhd, List.take_of_length_le hlen]

/-- C2 (witness). -/
theorem validate_idempotent_witness :
    (validate_github_topic "Machine Learning").data.getLast? ≠ some '-' ∧
      validate_github_topic (validate_github_topic "Machine Learning") =
        validate_github_topic "Machine Learning" :=
  ⟨by decide, validate_github_topic_idempotent_unless_truncated "Machine Learning"
    (by decide)⟩

/-- C3 (counterexample): a non-empty validator output can end in a hyphen —
the trailing-hyphen strip happens before truncation, which can cut directly
after a hyphen. -/
theorem validate_output_trailing_hyphen :
    validate_github_topic hyphenAt35 ≠ "" ∧
      (validate_github_topic hyphenAt35).data.getLast? = some '-' := by decide

/-- C3 (amended): every non-empty validator output `t` matches
`^[a-z0-9][a-z0-9-]{0,34}$` (first character lowercase alphanumeric — hence
no leading hyphen — remaining at most 34 characters from `[a-z0-9-]`) and
contains no comma; a trailing hyphen, however, can survive the final
truncation. -/
theorem validate_output_pattern (s : String) (h : validate_github_topic s ≠ "") :
    (∃ c cs, (validate_github_topic s).data = c :: cs ∧ isLowerAlnum c = true ∧
      cs.length ≤ 34 ∧ ∀ x ∈ cs, isLowerAlnumHyphen x = true) ∧
    ',' ∉ (validate_github_topic s).data ∧
    (validate_github_topic s).data.headD ' ' ≠ '-' := by
  obtain ⟨hall, ⟨c0, cs0, hdata, hc0⟩, hlen, _⟩ := validate_props s h
  refine ⟨⟨c0, cs0, hdata, hc0, ?_, ?_⟩, ?_, ?_⟩
  · rw [hdata] at hlen
    simp only [List.length_cons] at hlen
    omega
  · intro x hx
    exact hall x (hdata ▸ List.mem_cons_of_mem _ hx)
  · intro hmem
    exact absurd (hall ',' hmem) (by decide)
  · rw [hdata]
    have := hyphen_not_lowerAlnum hc0
    simp only [isHyphen, decide_eq_false_iff_not] at this
    simpa using this

/-- C3 (witness). -/
theorem validate_output_pattern_witness :
    validate_github_topic "Machine Learning" ≠ "" ∧
      ',' ∉ (validate_github_topic "Machine Learning").data :=
  ⟨by decide, (validate_output_pattern "Machine Learning" (by decide)).2.1⟩

/-- C1 (counterexample): no record with the claimed invariant is ever
produced.  `SEOGenerator.optimize_repository` raises `TypeError` in its
ANALYZE step on every input, so it returns no record at all; and the
packaging code that follows (lines 137-181, modelled by
`seoOptimizeRepositoryCore`) would return the provider's topics unvalidated —
with the local provider, a current topic `"Hello World"` flows into
`new_topics` unchanged even though the Topic Validator does not map it to
itself. -/
theorem optimize_repository_topic_not_validated :
    seoOptimizeRepository localProviderM "x" [] ["Hello World"]
        "a description longer than thirty characters" "" =
      Except.error "TypeError" ∧
    "Hello World" ∈ (seoOptimizeRepositoryCore localProviderM "x" []
        ["Hello World"] "a description longer than thirty characters" "").new_topics ∧
      validate_github_topic "Hello World" ≠ "Hello World" :=
  ⟨rfl, by decide, by decide⟩

/-- C1 (amended): the invariant holds not of `SEOGenerator.optimize_repository`
(which returns the provider's topics as-is) but of the topic list
`update_repo_topics` sends to GitHub: at most 20 entries, each a non-empty
validated topic matching `^[a-z0-9][a-z0-9-]{0,34}$` with no comma, and no
two entries equal up to case (all entries are fully lowercased, so pairwise
distinctness is case-insensitive distinctness). -/
theorem update_repo_topics_invariant (ts : List String) :
    (updateRepoValidTopics ts).length ≤ 20 ∧
    (∀ t ∈ updateRepoValidTopics ts,
      t ≠ "" ∧ (∃ c cs, t.data = c :: cs ∧ isLowerAlnum c = true) ∧
      (∀ c ∈ t.data, isLowerAlnumHyphen c = true) ∧
      t.data.length ≤ 35 ∧ ',' ∉ t.data) ∧
    (updateRepoValidTopics ts).Pairwise (fun a b => lowerStr a ≠ lowerStr b) := by
  obtain ⟨hmem, hnd⟩ := updateRepoFold_invariant ts []
    (by intro x hx; cases hx) List.nodup_nil
  have hprops : ∀ t ∈ ts.foldl updateRepoStep [],
      t ≠ "" ∧ (∃ c cs, t.data = c :: cs ∧ isLowerAlnum c = true) ∧
      (∀ c ∈ t.data, isLowerAlnumHyphen c = true) ∧
      t.data.length ≤ 35 ∧ ',' ∉ t.data := by
    intro t ht
    obtain ⟨hne, t0, ht0⟩ := hmem t ht
    obtain ⟨hall, hex, hlen, _⟩ := validate_props t0 (by rw [← ht0]; exact hne)
    rw [← ht0] at hall hex hlen
    refine ⟨hne, hex, hall, hlen, ?_⟩
    intro hcm
    exact absurd (hall ',' hcm) (by decide)
  have hfix : ∀ t ∈ ts.foldl updateRepoStep [], lowerStr t = t := by
    intro t ht
    unfold lowerStr
    rw [map_pyToLower_id (hprops t ht).2.2.1]
  have hpair : (ts.foldl updateRepoStep []).Pairwise
      (fun a b => lowerStr a ≠ lowerStr b) := by
    refine List.Pairwise.imp_of_mem ?_ hnd
    intro a b ha hb hne heq
    rw [hfix a ha, hfix b hb] at heq
    exact hne heq
  unfold updateRepoValidTopics
  by_cases h20 : (ts.foldl updateRepoStep []).length > 20
  · rw [if_pos h20]
    refine ⟨?_, ?_, ?_⟩
    · have := List.length_take 20 (ts.foldl updateRepoStep [])
      omega
    · intro t ht
      exact hprops t ((List.take_sublist _ _).subset ht)
    · exact List.Pairwise.sublist (List.take_sublist _ _) hpair
  · rw [if_neg h20]
    exact ⟨by omega, hprops, hpair⟩

/-- C1 (witness). -/
theorem update_repo_topics_invariant_witness :
    (updateRepoValidTopics ["Machine Learning", "machine-learning", "x,y"]).length ≤ 20 ∧
      "machine-learning" ≠ "" :=
  ⟨(update_repo_topics_invariant ["Machine Learning", "machine-learning", "x,y"]).1,
    ((update_repo_topics_invariant ["Machine Learning", "machine-learning", "x,y"]).2.1
      "machine-learning" (by decide)).1⟩

/-- C4 (counterexample): with 21 distinct current topics, an empty readme and
no languages, the SEO-Generator-level `generate_topics` returns 21 topics —
the capping loop keeps every current topic before checking the cap. -/
theorem generate_topics_exceeds_cap :
    (generatorGenerateTopics "x" [] topics21 "").length = 21 := by decide

/-- C4 (amended): the generated topic list has at most 20 entries whenever
the current topics number at most 19 — for `LocalProvider.generate_topics`
(own cap 10) and for the SEO-Generator-level `generate_topics` (cap 20).  In
general the length is bounded by `max cap (len(current_topics) + 1)`, so 21
or more current topics can exceed 20. -/
theorem generate_topics_cap (repo_name : String) (languages : List String)
    (current_topics : List String) (readme : String)
    (hcur : current_topics.length ≤ 19) :
    (localGenerateTopics repo_name languages current_topics readme).length ≤ 20 ∧
    (generatorGenerateTopics repo_name languages current_topics readme).length ≤ 20 := by
  constructor
  · unfold localGenerateTopics
    by_cases h : (localTopicsSet repo_name languages current_topics readme).length > 10
    · rw [if_pos h]
      have := capLoop_length 10 (localTopicsSet repo_name languages current_topics readme)
        current_topics
      omega
    · rw [if_neg h]
      omega
  · unfold generatorGenerateTopics
    by_cases h :
        (generatorTopicsSet repo_name languages current_topics readme).length > 20
    · rw [if_pos h]
      have := capLoop_length 20
        (generatorTopicsSet repo_name languages current_topics readme) current_topics
      omega
    · rw [if_neg h]
      omega

/-- C4 (witness). -/
theorem generate_topics_cap_witness :
    ([("existing" : String)].length ≤ 19) ∧
      (localGenerateTopics "my-cool-tool" ["Python"] ["existing"] "").length ≤ 20 :=
  ⟨by decide, (generate_topics_cap "my-cool-tool" ["Python"] ["existing"] ""
    (by decide)).1⟩

/-- C5 (counterexample): an existing README of exactly 100 characters is not
returned unchanged — the pass-through threshold is strict (`len > 100`), so
at length 100 a fresh template is synthesized instead. -/
theorem generate_readme_not_identity_at_100 :
    localGenerateReadme "x" [] [] "" (some readme100) ≠ readme100 := by decide

/-- C5 (amended): `generate_readme` returns the existing README exactly when
its length is strictly greater than 100 characters, for every `generate_readme`
implementation in the source: `LocalProvider.generate_readme`, the
module-level `generate_readme` of `seo_generator/generator.py`, and the
remote `OpenAIProvider.generate_readme` and `AnthropicProvider.generate_readme`
(whatever the backend completion); at exactly 100 characters each synthesizes
a fresh README instead. -/
theorem generate_readme_pass_through (repo_name : String) (languages : List String)
    (topics : List String) (description : String) (existing : String)
    (hlen : existing.data.length > 100) :
    localGenerateReadme repo_name languages topics description (some existing) =
        existing ∧
      generatorGenerateReadme repo_name languages topics description (some existing) =
        existing ∧
      (∀ completion : String,
        openaiGenerateReadme completion repo_name languages topics description
          (some existing) = existing) ∧
      (∀ completion : String,
        anthropicGenerateReadme completion repo_name languages topics description
          (some existing) = existing) := by
  have hne : existing ≠ "" := by
    intro h
    rw [h] at hlen
    simp at hlen
  refine ⟨?_, ?_, ?_, ?_⟩
  · show (if existing ≠ "" ∧ existing.data.length > 100 then existing
      else ruleReadmeTemplate repo_name languages topics description) = existing
    rw [if_pos ⟨hne, hlen⟩]
  · show (if existing ≠ "" ∧ existing.data.length > 100 then existing
      else ruleReadmeTemplate repo_name languages topics description) = existing
    rw [if_pos ⟨hne, hlen⟩]
  · intro completion
    show (if existing ≠ "" ∧ existing.data.length > 100 then existing
      else String.mk (pyStrip isAsciiSpace completion.data)) = existing
    rw [if_pos ⟨hne, hlen⟩]
  · intro completion
    show (if existing ≠ "" ∧ existing.data.length > 100 then existing
      else String.mk (pyStrip isAsciiSpace completion.data)) = existing
    rw [if_pos ⟨hne, hlen⟩]

/-- C5 (witness). -/
theorem generate_readme_pass_through_witness :
    readme101.data.length > 100 ∧
      localGenerateReadme "x" [] [] "" (some readme101) = readme101 :=
  ⟨by decide, (generate_readme_pass_through "x" [] [] "" readme101 (by decide)).1⟩

/-- C6 (counterexample): the exception fallback of
`SEOGenerator.generate_description` is not extensionally equal to
`LocalProvider.generate_description`: on a README whose first content line
has 40 characters, the fallback (module-level threshold 30) returns the line,
while the local provider (threshold 50) synthesizes from the name and
language. -/
theorem fallback_description_differs_from_local :
    seoGenerateDescription failingProviderM "x" ["Python"] [] readme40 ≠
      localGenerateDescription "x" ["Python"] [] readme40 := by decide

/-- C6 (amended): when the active provider's `generate_description` raises,
`SEOGenerator.generate_description` returns exactly the module-level
rule-based `generate_description` of `seo_generator/generator.py` (first-line
threshold 30), which is not the same function as
`LocalProvider.generate_description` (threshold 50). -/
theorem fallback_description_is_module_level (p : ProviderM) (repo_name : String)
    (languages : List String) (topics : List String) (readme : String) (e : String)
    (h : p.genDescription repo_name languages topics readme = Except.error e) :
    seoGenerateDescription p repo_name languages topics readme =
      generatorGenerateDescription repo_name languages topics readme := by
  unfold seoGenerateDescription
  rw [h]

/-- C6 (witness). -/
theorem fallback_description_witness :
    seoGenerateDescription failingProviderM "x" ["Python"] [] readme40 =
      generatorGenerateDescription "x" ["Python"] [] readme40 :=
  fallback_description_is_module_level failingProviderM "x" ["Python"] [] readme40
    "boom" rfl

/-- Python set equality of two lists is mutual membership. -/
theorem pySetEqStr_iff (a b : List String) :
    pySetEqStr a b = true ↔ (∀ x, x ∈ a ↔ x ∈ b) := by
  unfold pySetEqStr
  rw [Bool.and_eq_true, List.all_eq_true, List.all_eq_true]
  constructor
  · rintro ⟨h1, h2⟩ x
    constructor
    · intro hx
      have := h1 x hx
      simpa using this
    · intro hx
      have := h2 x hx
      simpa using this
  · intro h
    constructor
    · intro x hx
      simpa using (h x).mp hx
    · intro x hx
      simpa using (h x).mpr hx

/-- C7 (code bug): the claim describes the PACKAGE step of
`optimize_repository`, and that code (lines 166-181) does compare topics as
sets and description/README as strings — `changes.topics` is true iff the
lists differ as sets (mutual membership), with `["b","a"]` against
`["a","b"]` giving `false`.  But the method raises `TypeError` in its ANALYZE
step on every input — `generator.py` line 129 passes five keyword arguments
to `analyze_repository(self, repo_data)` of `content_analyzer/__init__.py` —
so in the source that record is never returned, even though the specification
says an analyzer failure must not abort the pass.  The first conjunct records
the failure; the rest proves the claimed semantics of the packaging code. -/
theorem optimize_repository_changes_semantics :
    (∀ (p : ProviderM) (repo_name : String) (languages current_topics : List String)
        (current_description readme : String),
      seoOptimizeRepository p repo_name languages current_topics current_description
          readme = Except.error "TypeError") ∧
    (∀ (p : ProviderM)
        (repo_name : String) (languages current_topics : List String)
        (current_description readme : String),
      (((seoOptimizeRepositoryCore p repo_name languages current_topics
            current_description readme).changes.topics = true) ↔
        ¬ (∀ x, x ∈ (seoOptimizeRepositoryCore p repo_name languages current_topics
              current_description readme).new_topics ↔ x ∈ current_topics)) ∧
      (((seoOptimizeRepositoryCore p repo_name languages current_topics
            current_description readme).changes.description = true) ↔
        (seoOptimizeRepositoryCore p repo_name languages current_topics
            current_description readme).new_description ≠ current_description) ∧
      (((seoOptimizeRepositoryCore p repo_name languages current_topics
            current_description readme).changes.readme = true) ↔
        (seoOptimizeRepositoryCore p repo_name languages current_topics
            current_description readme).new_readme ≠ readme)) ∧
    (seoOptimizeRepositoryCore
        (ProviderM.mk (fun _ _ _ _ => Except.ok "d")
          (fun _ _ _ _ => Except.ok ["b", "a"]) (fun _ _ _ _ _ => Except.ok "r"))
        "x" [] ["a", "b"] "a description longer than thirty chars"
        "").changes.topics = false := by
  refine ⟨?_, ?_, ?_⟩
  · intro p repo_name languages current_topics current_description readme
    rfl
  · intro p repo_name languages current_topics current_description readme
    refine ⟨?_, ?_, ?_⟩
    · show ((! pySetEqStr
          (seoGenerateTopics p repo_name languages current_topics readme)
          current_topics) = true) ↔
        ¬ (∀ x, x ∈ seoGenerateTopics p repo_name languages current_topics readme ↔
          x ∈ current_topics)
      rw [Bool.not_eq_true']
      constructor
      · intro hf hall
        rw [(pySetEqStr_iff _ _).mpr hall] at hf
        cases hf
      · intro hne
        cases hb : pySetEqStr
            (seoGenerateTopics p repo_name languages current_topics readme)
            current_topics
        · rfl
        · exact absurd ((pySetEqStr_iff _ _).mp hb) hne
    · exact bne_iff_ne
    · exact bne_iff_ne
  · decide

/-- C8 (counterexample): `LocalProvider.generate_topics` raises on a `None`
readme — the `common_topics` loop calls `readme.lower()` outside the
`if readme:` guard, producing an `AttributeError`. -/
theorem generate_topics_none_readme_raises :
    localGenerateTopicsOpt "x" [] [] none = Except.error "AttributeError" := rfl

/-- C8 (amended): for string (possibly empty) inputs the local provider never
raises; `generate_description`, `analyze_readme` and `generate_readme` also
tolerate a `None` readme, and empty inputs degrade to default-shaped results.
Only `generate_topics` with a `None` readme errors. -/
theorem local_provider_failure_semantics :
    (∀ (repo_name : String) (languages topics : List String) (readme : Option String),
      exceptOk (localGenerateDescriptionOpt repo_name languages topics readme) = true) ∧
    (∀ readme : Option String, exceptOk (localAnalyzeReadmeOpt readme) = true) ∧
    (∀ (repo_name : String) (languages topics : List String) (description : String)
        (readme : Option String),
      exceptOk (localGenerateReadmeOpt repo_name languages topics description readme) =
        true) ∧
    (∀ (repo_name : String) (languages current : List String) (readme : String),
      exceptOk (localGenerateTopicsOpt repo_name languages current (some readme)) =
        true) ∧
    localAnalyzeReadme "" = emptyReadmeAnalysis ∧
    localGenerateTopics "" [] [] "" = [] ∧
    localGenerateDescription "" [] [] "" = "A project for " := by
  refine ⟨?_, ?_, ?_, ?_, rfl, by decide, by decide⟩
  · intro repo_name languages topics readme
    cases readme <;> rfl
  · intro readme
    cases readme <;> rfl
  · intro repo_name languages topics description readme
    rfl
  · intro repo_name languages current readme
    rfl

/-- C9 (counterexample): the name token `"my"` is not among the generated
topics for `"my-cool-tool"` — repository-name tokens must have length
strictly greater than 2. -/
theorem generate_topics_drops_short_name_token :
    "my" ∉ localGenerateTopics "my-cool-tool" ["Python"] [] "" := by decide

set_option maxRecDepth 20000 in
/-- C9 (amended): for repo name `"my-cool-tool"`, languages `["Python"]`, no
topics, empty description and readme: the local description starts with (in
fact equals) `"A Python project for My Cool Tool"`; the topics include
`"cool"`, `"tool"` and `"python"` but not `"my"` (name tokens of length ≤ 2
are filtered); and the generated README is non-empty, contains
`"# My Cool Tool"` and a `python main.py` usage line. -/
theorem end_to_end_scenario :
    List.isPrefixOf "A Python project for My Cool Tool".data
        (localGenerateDescription "my-cool-tool" ["Python"] [] "").data = true ∧
    "cool" ∈ localGenerateTopics "my-cool-tool" ["Python"] [] "" ∧
    "tool" ∈ localGenerateTopics "my-cool-tool" ["Python"] [] "" ∧
    "python" ∈ localGenerateTopics "my-cool-tool" ["Python"] [] "" ∧
    "my" ∉ localGenerateTopics "my-cool-tool" ["Python"] [] "" ∧
    localGenerateReadme "my-cool-tool" ["Python"] [] "" (some "") ≠ "" ∧
    listIn "# My Cool Tool".data
        (localGenerateReadme "my-cool-tool" ["Python"] [] "" (some "")).data = true ∧
    listIn "python main.py".data
        (localGenerateReadme "my-cool-tool" ["Python"] [] "" (some "")).data = true := by
  decide

/-- Truncating to `n ≥ 3` characters with an ellipsis yields at most `n`
characters. -/
theorem pyTruncate_length_le {n : Nat} (hn : 3 ≤ n) (s : String) :
    (pyTruncate n s).data.length ≤ n := by
  unfold pyTruncate
  by_cases h : s.data.length > n
  · rw [if_pos h]
    have hdata : (String.mk (s.data.take (n - 3)) ++ "...").data =
        s.data.take (n - 3) ++ ['.', '.', '.'] := by
      rw [String.data_append]
    rw [hdata]
    simp only [List.length_append, List.length_take]
    have h3 : (['.', '.', '.'] : List Char).length = 3 := rfl
    omega
  · rw [if_neg h]
    omega

/-- C10: on a transport failure, `OllamaProvider.generate_description` never
raises and returns the human-readable error message as the description,
truncated to at most 160 characters with a trailing ellipsis when longer: the
result is always at most 160 characters; a connection error and a timeout
yield the fixed messages; a non-200 status yields the truncation of the
status-plus-detail message; a failing `/api/tags` check yields the truncation
of the availability message. -/
theorem ollama_transport_failure_behavior :
    (∀ (apiBase mdl : String) (tags : TagsOutcome) (post : PostOutcome)
        (repo_name : String) (languages topics : List String) (readme : String),
      (ollamaGenerateDescription apiBase mdl tags post repo_name languages topics
          readme).data.length ≤ 160) ∧
    (∀ (apiBase mdl repo_name : String) (languages topics : List String)
        (readme : String),
      ollamaGenerateDescription apiBase mdl TagsOutcome.raised PostOutcome.connError
          repo_name languages topics readme =
        "Error: Could not connect to Ollama API. Make sure Ollama is running.") ∧
    (∀ (apiBase mdl repo_name : String) (languages topics : List String)
        (readme : String),
      ollamaGenerateDescription apiBase mdl TagsOutcome.raised PostOutcome.timeoutErr
          repo_name languages topics readme =
        "Error: Request to Ollama API timed out. The model might be too large or busy.") ∧
    (∀ (apiBase mdl : String) (status : Nat) (rf : String) (d : ErrDetail)
        (repo_name : String) (languages topics : List String) (readme : String),
      status ≠ 200 →
      ollamaGenerateDescription apiBase mdl TagsOutcome.raised
          (PostOutcome.resp status rf d) repo_name languages topics readme =
        pyTruncate 160 (ollamaErrorMessage status d)) ∧
    (∀ (apiBase mdl : String) (post : PostOutcome) (repo_name : String)
        (languages topics : List String) (readme : String),
      ollamaGenerateDescription apiBase mdl TagsOutcome.notOk post repo_name languages
          topics readme =
        pyTruncate 160 ("Error: Ollama API not available at " ++ apiBase)) := by
  refine ⟨?_, ?_, ?_, ?_, ?_⟩
  · intro apiBase mdl tags post repo_name languages topics readme
    exact pyTruncate_length_le (by omega) _
  · intro apiBase mdl repo_name languages topics readme
    rfl
  · intro apiBase mdl repo_name languages topics readme
    rfl
  · intro apiBase mdl status rf d repo_name languages topics readme h
    show pyTruncate 160 (if status = 200 then rf else ollamaErrorMessage status d) =
      pyTruncate 160 (ollamaErrorMessage status d)
    rw [if_neg h]
  · intro apiBase mdl post repo_name languages topics readme
    rfl

/-- C10 (witness). -/
theorem ollama_transport_failure_witness :
    (500 ≠ 200) ∧
      ollamaGenerateDescription "http://localhost:11434" "mistral:latest"
          TagsOutcome.raised (PostOutcome.resp 500 "" ErrDetail.jsonNoError)
          "x" [] [] "" =
        pyTruncate 160 (ollamaErrorMessage 500 ErrDetail.jsonNoError) :=
  ⟨by decide, ollama_transport_failure_behavior.2.2.2.1 "http://localhost:11434"
    "mistral:latest" 500 "" ErrDetail.jsonNoError "x" [] [] "" (by decide)⟩

end RepoSeo
